import Mathlib

/-!
Verification of the heart-disease inference service (src/main.py).

The service is a thin HTTP facade over an injected model collaborator.
We embed the request handlers as pure Lean functions:

* machine floats of the source become exact rationals (`Rat`);
* the model collaborator is a structure with the two batch-level
  operations the handlers call (`predict`, `predict_proba`), each
  returning `Except String` so that a raised exception is an `error`
  carrying the exception message;
* Python indexing (`xs[0]`, `row[1]`, numpy column slice `[:, 1]`)
  is modelled by `itemAt` / `column1`, which raise (return `error`)
  on an out-of-range index, exactly as the interpreter would;
* each `try ... except Exception as e: raise HTTPException(500, ...)`
  block becomes an explicit match cascade whose error branches build
  the corresponding `HTTPErr` value;
* `pd.DataFrame([input.dict()])` becomes the one-row list of the
  13 feature values in field-declaration order (`featureRow`).
-/

/-- The 13-field input schema (`HeartDiseaseInput` in main.py).
Integer fields stay integers; `oldpeak` is a float, embedded as `Rat`. -/
structure HeartDiseaseInput where
  age : Int
  sex : Int
  cp : Int
  trestbps : Int
  chol : Int
  fbs : Int
  restecg : Int
  thalach : Int
  exang : Int
  oldpeak : Rat
  slope : Int
  ca : Int
  thal : Int
deriving Repr, DecidableEq, Inhabited

/-- Row of the pandas DataFrame built from one input record: the 13
field values in declaration order, as in `pd.DataFrame([input.dict()])`. -/
def featureRow (d : HeartDiseaseInput) : List Rat :=
  [(d.age : Rat), (d.sex : Rat), (d.cp : Rat), (d.trestbps : Rat),
   (d.chol : Rat), (d.fbs : Rat), (d.restecg : Rat), (d.thalach : Rat),
   (d.exang : Rat), d.oldpeak, (d.slope : Rat), (d.ca : Rat), (d.thal : Rat)]

/-- The opaque model collaborator: the two operations main.py calls on
the loaded object.  `predict` maps a batch of rows to discrete labels,
`predict_proba` to per-row probability vectors.  An `error` value is a
raised exception carrying `str(e)`. -/
structure Model where
  predict : List (List Rat) → Except String (List Int)
  predict_proba : List (List Rat) → Except String (List (List Rat))

/-- An `HTTPException(status_code, detail)` raised by a handler. -/
structure HTTPErr where
  status_code : Nat
  detail : String
deriving Repr, DecidableEq

/-- Response model of `/predict` (`HeartDiseasePrediction` in main.py). -/
structure HeartDiseasePrediction where
  prediction : Int
  probability : Rat
  confidence : String
deriving Repr, DecidableEq

/-- Response model of `/model-info` (`ModelInfo` in main.py). -/
structure ModelInfo where
  model_type : String
  accuracy : Rat
  features : List String
  description : String
deriving Repr, DecidableEq

/-- One element of the `/predict-batch` results list. -/
structure BatchEntry where
  patient_id : Nat
  prediction : Int
  probability : Rat
  confidence : String
deriving Repr, DecidableEq

/-- Response of `/predict-batch`. -/
structure BatchResult where
  predictions : List BatchEntry
  total_patients : Nat
deriving Repr, DecidableEq

/-- Response of `/health`. -/
structure HealthResponse where
  status : String
  model_loaded : Bool
  timestamp : String
deriving Repr, DecidableEq

deriving instance DecidableEq for Except

/-- Python list indexing `xs[i]`: raises IndexError when out of range. -/
def itemAt {α : Type} (l : List α) (i : Nat) : Except String α :=
  match l.get? i with
  | some x => .ok x
  | none => .error "index out of range"

/-- numpy column slice `probas[:, 1]`: extracts entry 1 of every row,
raising when a row is too short. -/
def column1 : List (List Rat) → Except String (List Rat)
  | [] => .ok []
  | row :: rest =>
    match itemAt row 1 with
    | .error e => .error e
    | .ok q =>
      match column1 rest with
      | .error e => .error e
      | .ok qs => .ok (q :: qs)

/-- `/health` handler (`health_check` in main.py).  The wall-clock
timestamp `pd.Timestamp.now().isoformat()` is passed in as `now`. -/
def health_check (model : Option Model) (now : String) : HealthResponse :=
  { status := "healthy"
    model_loaded := model.isSome
    timestamp := now }

/-- `/model-info` handler (`get_model_info` in main.py). -/
def get_model_info (model : Option Model) : Except HTTPErr ModelInfo :=
  match model with
  | none => .error ⟨503, "Model not loaded"⟩
  | some _ =>
    .ok { model_type := "Logistic Regression"
          accuracy := 0.8852
          features := ["age", "sex", "cp", "trestbps", "chol", "fbs", "restecg",
                       "thalach", "exang", "oldpeak", "slope", "ca", "thal"]
          description := "Logistic Regression model trained on UCI Heart Disease dataset with 88.52% accuracy" }

/-- `/predict` handler (`predict_heart_disease` in main.py).  The body of
the `try` block is the match cascade: every raised exception (from the
model or from indexing) is converted to a 500 with detail
`"Prediction error: " ++ str(e)`. -/
def predict_heart_disease (model : Option Model) (input_data : HeartDiseaseInput) :
    Except HTTPErr HeartDiseasePrediction :=
  match model with
  | none => .error ⟨503, "Model not loaded"⟩
  | some m =>
    let input_df := [featureRow input_data]
    match m.predict input_df with
    | .error e => .error ⟨500, "Prediction error: " ++ e⟩
    | .ok preds =>
      match itemAt preds 0 with
      | .error e => .error ⟨500, "Prediction error: " ++ e⟩
      | .ok prediction =>
        match m.predict_proba input_df with
        | .error e => .error ⟨500, "Prediction error: " ++ e⟩
        | .ok probas =>
          match itemAt probas 0 with
          | .error e => .error ⟨500, "Prediction error: " ++ e⟩
          | .ok row0 =>
            match itemAt row0 1 with
            | .error e => .error ⟨500, "Prediction error: " ++ e⟩
            | .ok probability =>
              .ok { prediction := prediction
                    probability := probability
                    confidence :=
                      if probability > (0.8 : Rat) then "High"
                      else if probability > (0.6 : Rat) then "Medium"
                      else "Low" }

/-- `/predict-batch` handler (`predict_batch` in main.py).  `zip`
truncates to the shorter list, as Python zip does. -/
def predict_batch (model : Option Model) (input_data : List HeartDiseaseInput) :
    Except HTTPErr BatchResult :=
  match model with
  | none => .error ⟨503, "Model not loaded"⟩
  | some m =>
    let input_df := input_data.map featureRow
    match m.predict input_df with
    | .error e => .error ⟨500, "Batch prediction error: " ++ e⟩
    | .ok predictions =>
      match m.predict_proba input_df with
      | .error e => .error ⟨500, "Batch prediction error: " ++ e⟩
      | .ok probas =>
        match column1 probas with
        | .error e => .error ⟨500, "Batch prediction error: " ++ e⟩
        | .ok probabilities =>
          let results := ((predictions.zip probabilities).enum).map fun x =>
            { patient_id := x.1 + 1
              prediction := x.2.1
              probability := x.2.2
              confidence :=
                if x.2.2 > (0.8 : Rat) then "High"
                else if x.2.2 > (0.6 : Rat) then "Medium"
                else "Low" : BatchEntry }
          .ok { predictions := results, total_patients := results.length }

/-- The confidence banding rule of the spec, applied to a probability. -/
def confidenceBand (p : Rat) : String :=
  if p > (0.8 : Rat) then "High" else if p > (0.6 : Rat) then "Medium" else "Low"

/-- A model is pointwise when its two batch operations are the vectorized
form of per-row functions `f` (discrete label) and `g` (probability
vector), never raising: the behaviour the model contract of the spec
describes for a scikit-learn style classifier. -/
def Model.Pointwise (m : Model) (f : List Rat → Int) (g : List Rat → List Rat) : Prop :=
  (∀ rows, m.predict rows = .ok (rows.map f)) ∧
  (∀ rows, m.predict_proba rows = .ok (rows.map g))

/-- Build the pointwise model with row functions `f` and `g`. -/
def Model.ofFuns (f : List Rat → Int) (g : List Rat → List Rat) : Model :=
  { predict := fun rows => .ok (rows.map f)
    predict_proba := fun rows => .ok (rows.map g) }

/-- Positive-class probability a pointwise model assigns to a row. -/
def posProb (g : List Rat → List Rat) (v : List Rat) : Rat :=
  (g v).getD 1 0

def sampleInput : HeartDiseaseInput :=
  { age := 63, sex := 1, cp := 3, trestbps := 145, chol := 233, fbs := 1,
    restecg := 0, thalach := 150, exang := 0, oldpeak := 2.3, slope := 0,
    ca := 0, thal := 1 }

/-- Stub model: always label 1, positive probability 0.85. -/
def stubModel85 : Model := Model.ofFuns (fun _ => 1) (fun _ => [3/20, 17/20])

/-- Stub model whose predict call raises an exception with message `boom`. -/
def failModel : Model :=
  { predict := fun _ => .error "boom"
    predict_proba := fun _ => .error "boom" }

/-- Stub model whose probability call raises, while predict succeeds. -/
def probaFailModel : Model :=
  { predict := fun rows => .ok (rows.map fun _ => 1)
    predict_proba := fun _ => .error "proba boom" }

/-- Stub model predicting class 1 with positive probability only 0.3:
its decision boundary is not the 0.5 cutoff on the returned probability. -/
def divergeModel : Model := Model.ofFuns (fun _ => 1) (fun _ => [7/10, 3/10])

/-- Stub model with probabilities inside the unit interval. -/
def boundedModel : Model := Model.ofFuns (fun _ => 1) (fun _ => [1/4, 3/4])

/-- Prediction record Predict returns for `boundedModel`. -/
def medPrediction : HeartDiseasePrediction :=
  { prediction := 1, probability := 3/4, confidence := "Medium" }

/-- Prediction record Predict returns for `stubModel85`. -/
def highPrediction : HeartDiseasePrediction :=
  { prediction := 1, probability := 17/20, confidence := "High" }

/-- Batch entry PredictBatch returns for `stubModel85` on one record. -/
def highEntry : BatchEntry :=
  { patient_id := 1, prediction := 1, probability := 17/20, confidence := "High" }

/-- Second sample record, from test_api.py. -/
def sampleInput2 : HeartDiseaseInput :=
  { age := 37, sex := 1, cp := 2, trestbps := 130, chol := 250, fbs := 0,
    restecg := 1, thalach := 187, exang := 0, oldpeak := 3.5, slope := 0,
    ca := 0, thal := 2 }

/-! ### List helper lemmas -/

theorem getq_mem {α : Type} : ∀ (l : List α) (i : Nat) (x : α),
    l.get? i = some x → x ∈ l
  | a :: _, 0, x, h => by
    simp only [List.get?] at h
    cases h
    exact List.mem_cons_self _ _
  | _ :: as, i + 1, x, h => by
    simp only [List.get?] at h
    exact List.mem_cons_of_mem _ (getq_mem as i x h)

theorem enumFrom_len {α : Type} : ∀ (l : List α) (n : Nat),
    (List.enumFrom n l).length = l.length
  | [], _ => rfl
  | _ :: as, n => by simp [List.enumFrom, enumFrom_len as (n + 1)]

theorem getq_enumFrom_map {α β : Type} (F : Nat × α → β) :
    ∀ (l : List α) (n i : Nat),
      ((List.enumFrom n l).map F).get? i = (l.get? i).map fun a => F (n + i, a)
  | [], _, _ => by simp
  | a :: as, n, 0 => by simp [List.enumFrom]
  | a :: as, n, i + 1 => by
    have ih := getq_enumFrom_map F as (n + 1) i
    simp only [List.enumFrom, List.map, List.get?] at ih ⊢
    rw [ih]
    have : n + 1 + i = n + (i + 1) := by omega
    rw [this]

theorem enumFrom_map {α β : Type} (f : α → β) :
    ∀ (l : List α) (n : Nat),
      List.enumFrom n (l.map f) = (List.enumFrom n l).map fun x => (x.1, f x.2)
  | [], _ => rfl
  | a :: as, n => by
    simp only [List.map, List.enumFrom]
    exact congrArg (List.cons _) (enumFrom_map f as (n + 1))

theorem zip_map_enumFrom {α β γ : Type} (f : α → β) (p : α → γ) :
    ∀ (l : List α) (n : Nat),
      List.enumFrom n ((l.map f).zip (l.map p)) =
        (List.enumFrom n l).map fun x => (x.1, (f x.2, p x.2))
  | [], _ => rfl
  | a :: as, n => by
    simp only [List.map, List.zip, List.zipWith, List.enumFrom]
    exact congrArg (List.cons _) (zip_map_enumFrom f p as (n + 1))

/-! ### Evaluation lemmas for the embedded handlers -/

theorem itemAt_getq {α : Type} (l : List α) (i : Nat) (x : α) :
    itemAt l i = .ok x ↔ l.get? i = some x := by
  unfold itemAt
  cases h : l.get? i <;> simp

theorem itemAt_one {α : Type} : ∀ (row : List α) (d : α), 2 ≤ row.length →
    itemAt row 1 = .ok (row.getD 1 d)
  | _ :: _ :: _, _, _ => rfl

theorem column1_ok : ∀ (rows : List (List Rat)),
    (∀ row ∈ rows, 2 ≤ row.length) →
    column1 rows = .ok (rows.map fun row => row.getD 1 0)
  | [], _ => rfl
  | row :: rest, h => by
    have h1 : 2 ≤ row.length := h row (List.mem_cons_self _ _)
    have h2 := column1_ok rest fun r hr => h r (List.mem_cons_of_mem _ hr)
    simp only [column1, itemAt_one row 0 h1, h2, List.map]

/-! ### Confidence banding -/

theorem band_high_iff (p : Rat) : confidenceBand p = "High" ↔ 0.8 < p := by
  unfold confidenceBand
  split_ifs with h1 h2 <;> simp_all <;> intro h <;> simp_all <;> linarith

theorem band_medium_iff (p : Rat) :
    confidenceBand p = "Medium" ↔ (0.6 < p ∧ p ≤ 0.8) := by
  unfold confidenceBand
  split_ifs with h1 h2 <;> simp_all <;> first | linarith | (intro h; linarith)

theorem band_low_iff (p : Rat) : confidenceBand p = "Low" ↔ p ≤ 0.6 := by
  unfold confidenceBand
  split_ifs with h1 h2 <;> simp_all <;> linarith

/-! ### Characterizations of the single-prediction handler -/

theorem predict_ok_conf (m : Model) (input : HeartDiseaseInput)
    (r : HeartDiseasePrediction)
    (h : predict_heart_disease (some m) input = .ok r) :
    r.confidence = confidenceBand r.probability := by
  unfold predict_heart_disease at h
  cases h1 : m.predict [featureRow input] with
  | error e => simp [h1] at h
  | ok preds =>
  simp only [h1] at h
  cases h2 : itemAt preds 0 with
  | error e => simp [h2] at h
  | ok pred =>
  simp only [h2] at h
  cases h3 : m.predict_proba [featureRow input] with
  | error e => simp [h3] at h
  | ok probas =>
  simp only [h3] at h
  cases h4 : itemAt probas 0 with
  | error e => simp [h4] at h
  | ok row0 =>
  simp only [h4] at h
  cases h5 : itemAt row0 1 with
  | error e => simp [h5] at h
  | ok probability =>
  simp only [h5, Except.ok.injEq] at h
  rw [← h]
  rfl

theorem predict_pointwise (m : Model) (f : List Rat → Int)
    (g : List Rat → List Rat) (input : HeartDiseaseInput) (q : Rat)
    (hpw : Model.Pointwise m f g) (hq : (g (featureRow input)).get? 1 = some q) :
    predict_heart_disease (some m) input =
      .ok { prediction := f (featureRow input), probability := q,
            confidence := confidenceBand q } := by
  have h1 := hpw.1 [featureRow input]
  have h2 := hpw.2 [featureRow input]
  simp only [List.map] at h1 h2
  unfold predict_heart_disease
  simp only [h1, h2, itemAt, List.get?, hq, confidenceBand]

/-! ### Characterizations of the batch handler -/

theorem batch_ok_inv (m : Model) (l : List HeartDiseaseInput) (res : BatchResult)
    (h : predict_batch (some m) l = .ok res) :
    ∃ (preds : List Int) (probs : List Rat),
      res.predictions = (List.enumFrom 0 (preds.zip probs)).map
        (fun x => { patient_id := x.1 + 1, prediction := x.2.1,
                    probability := x.2.2,
                    confidence := confidenceBand x.2.2 : BatchEntry }) ∧
      res.total_patients = res.predictions.length := by
  unfold predict_batch at h
  cases h1 : m.predict (l.map featureRow) with
  | error e => simp [h1] at h
  | ok preds =>
  simp only [h1] at h
  cases h2 : m.predict_proba (l.map featureRow) with
  | error e => simp [h2] at h
  | ok pv =>
  simp only [h2] at h
  cases h3 : column1 pv with
  | error e => simp [h3] at h
  | ok probs =>
  simp only [h3, Except.ok.injEq] at h
  refine ⟨preds, probs, ?_, ?_⟩ <;> rw [← h] <;> rfl

theorem batch_entry_conf (m : Model) (l : List HeartDiseaseInput)
    (res : BatchResult) (h : predict_batch (some m) l = .ok res) :
    ∀ e ∈ res.predictions, e.confidence = confidenceBand e.probability := by
  obtain ⟨preds, probs, hp, -⟩ := batch_ok_inv m l res h
  intro e he
  rw [hp] at he
  obtain ⟨x, -, rfl⟩ := List.mem_map.1 he
  rfl

theorem batch_patient_id (m : Model) (l : List HeartDiseaseInput)
    (res : BatchResult) (h : predict_batch (some m) l = .ok res) :
    ∀ i e, res.predictions.get? i = some e → e.patient_id = i + 1 := by
  obtain ⟨preds, probs, hp, -⟩ := batch_ok_inv m l res h
  intro i e he
  rw [hp, getq_enumFrom_map] at he
  cases hx : (preds.zip probs).get? i with
  | none => rw [hx] at he; simp at he
  | some a =>
    rw [hx] at he
    simp only [Option.map_some', Option.some.injEq] at he
    rw [← he]
    simp

theorem batch_pointwise (m : Model) (f : List Rat → Int)
    (g : List Rat → List Rat) (l : List HeartDiseaseInput)
    (hpw : Model.Pointwise m f g)
    (hlen : ∀ rec ∈ l, 2 ≤ (g (featureRow rec)).length) :
    predict_batch (some m) l = .ok
      { predictions := (List.enumFrom 0 l).map fun x =>
          { patient_id := x.1 + 1
            prediction := f (featureRow x.2)
            probability := posProb g (featureRow x.2)
            confidence := confidenceBand (posProb g (featureRow x.2)) }
        total_patients := l.length } := by
  have h1 := hpw.1 (l.map featureRow)
  have h2 := hpw.2 (l.map featureRow)
  have hcol : column1 ((l.map featureRow).map g) =
      .ok (((l.map featureRow).map g).map fun row => row.getD 1 0) := by
    apply column1_ok
    intro row hrow
    obtain ⟨v, hv, rfl⟩ := List.mem_map.1 hrow
    obtain ⟨rec, hrec, rfl⟩ := List.mem_map.1 hv
    exact hlen rec hrec
  simp only [List.map_map] at h1 h2 hcol
  unfold predict_batch
  simp only [h1, h2, hcol, List.enum, List.map_map]
  rw [zip_map_enumFrom]
  simp only [List.map_map, List.length_map, enumFrom_len]
  rfl

theorem batch_error_status (model : Option Model) (l : List HeartDiseaseInput)
    (e : HTTPErr) (h : predict_batch model l = .error e) :
    e.status_code = 500 ∨ e.status_code = 503 := by
  cases model with
  | none =>
    unfold predict_batch at h
    simp only [Except.error.injEq] at h
    rw [← h]
    exact Or.inr rfl
  | some m =>
    unfold predict_batch at h
    cases h1 : m.predict (l.map featureRow) with
    | error msg =>
      simp only [h1, Except.error.injEq] at h
      rw [← h]
      exact Or.inl rfl
    | ok preds =>
      simp only [h1] at h
      cases h2 : m.predict_proba (l.map featureRow) with
      | error msg =>
        simp only [h2, Except.error.injEq] at h
        rw [← h]
        exact Or.inl rfl
      | ok pv =>
        simp only [h2] at h
        cases h3 : column1 pv with
        | error msg =>
          simp only [h3, Except.error.injEq] at h
          rw [← h]
          exact Or.inl rfl
        | ok probs =>
          simp only [h3] at h
          simp at h

/-! ### Claim theorems -/

/-- C1: the confidence label returned by Predict, and carried by each
PredictBatch result, is "High" iff p > 0.8, "Medium" iff 0.6 < p ≤ 0.8,
and "Low" iff p ≤ 0.6; in particular the banding maps p = 0.8 to
"Medium" and p = 0.6 to "Low". -/
theorem confidence_banding_rule :
    (∀ (m : Model) (input : HeartDiseaseInput) (r : HeartDiseasePrediction),
      predict_heart_disease (some m) input = .ok r →
        ((r.confidence = "High" ↔ (0.8 : Rat) < r.probability) ∧
         (r.confidence = "Medium" ↔
           ((0.6 : Rat) < r.probability ∧ r.probability ≤ 0.8)) ∧
         (r.confidence = "Low" ↔ r.probability ≤ (0.6 : Rat)))) ∧
    (∀ (m : Model) (l : List HeartDiseaseInput) (res : BatchResult),
      predict_batch (some m) l = .ok res →
        ∀ e ∈ res.predictions,
          ((e.confidence = "High" ↔ (0.8 : Rat) < e.probability) ∧
           (e.confidence = "Medium" ↔
             ((0.6 : Rat) < e.probability ∧ e.probability ≤ 0.8)) ∧
           (e.confidence = "Low" ↔ e.probability ≤ (0.6 : Rat)))) ∧
    confidenceBand 0.8 = "Medium" ∧ confidenceBand 0.6 = "Low" := by
  refine ⟨?_, ?_, ?_, ?_⟩
  · intro m input r h
    rw [predict_ok_conf m input r h]
    exact ⟨band_high_iff _, band_medium_iff _, band_low_iff _⟩
  · intro m l res h e he
    rw [batch_entry_conf m l res h e he]
    exact ⟨band_high_iff _, band_medium_iff _, band_low_iff _⟩
  · rw [band_medium_iff]; norm_num
  · rw [band_low_iff]

/-- Witness for C1: the stub model returning probability 0.85 makes
Predict return the "High" label, and the banding equivalence holds there. -/
theorem confidence_banding_rule_witness :
    highPrediction.confidence = "High" ↔ (0.8 : Rat) < highPrediction.probability :=
  (confidence_banding_rule.1 stubModel85 sampleInput highPrediction
    (by norm_num [predict_heart_disease, stubModel85, Model.ofFuns, itemAt,
                  highPrediction])).1

/-- C2: for a pointwise model whose probability rows have the two class
columns, PredictBatch on a non-empty list of N records returns exactly N
results, and the i-th result carries the same prediction, probability and
confidence as Predict on the i-th record alone. -/
theorem batch_single_consistent (m : Model) (f : List Rat → Int)
    (g : List Rat → List Rat) (l : List HeartDiseaseInput)
    (hpw : Model.Pointwise m f g)
    (hlen : ∀ rec ∈ l, 2 ≤ (g (featureRow rec)).length)
    (hne : l ≠ []) :
    ∃ res, predict_batch (some m) l = .ok res ∧
      res.predictions.length = l.length ∧
      ∀ i rec, l.get? i = some rec →
        ∃ e single, res.predictions.get? i = some e ∧
          predict_heart_disease (some m) rec = .ok single ∧
          e.prediction = single.prediction ∧
          e.probability = single.probability ∧
          e.confidence = single.confidence := by
  refine ⟨_, batch_pointwise m f g l hpw hlen, ?_, ?_⟩
  · simp [List.length_map, enumFrom_len]
  · intro i rec hrec
    have hq : (g (featureRow rec)).get? 1 = some (posProb g (featureRow rec)) := by
      have hL := hlen rec (getq_mem l i rec hrec)
      cases hg : g (featureRow rec) with
      | nil => rw [hg] at hL; simp at hL
      | cons a tail =>
        cases tail with
        | nil => rw [hg] at hL; simp at hL
        | cons b tb => simp [posProb, hg, List.get?, List.getD]
    refine ⟨{ patient_id := 0 + i + 1,
              prediction := f (featureRow rec),
              probability := posProb g (featureRow rec),
              confidence := confidenceBand (posProb g (featureRow rec)) },
            _, ?_, predict_pointwise m f g rec _ hpw hq, rfl, rfl, rfl⟩
    rw [getq_enumFrom_map, hrec]
    rfl

/-- Witness for C2 at the stub model and a concrete two-record batch. -/
theorem batch_single_consistent_witness :
    ∃ res, predict_batch (some stubModel85) [sampleInput, sampleInput2] = .ok res ∧
      res.predictions.length = [sampleInput, sampleInput2].length ∧
      ∀ i rec, [sampleInput, sampleInput2].get? i = some rec →
        ∃ e single, res.predictions.get? i = some e ∧
          predict_heart_disease (some stubModel85) rec = .ok single ∧
          e.prediction = single.prediction ∧
          e.probability = single.probability ∧
          e.confidence = single.confidence :=
  batch_single_consistent stubModel85 (fun _ => 1) (fun _ => [3/20, 17/20])
    [sampleInput, sampleInput2] ⟨fun _ => rfl, fun _ => rfl⟩
    (fun _ _ => Nat.le.refl) (by simp)

/-- C3: with a loaded pointwise model, PredictBatch on the empty record
list succeeds and returns zero total patients and no predictions. -/
theorem batch_empty_ok (m : Model) (f : List Rat → Int)
    (g : List Rat → List Rat) (hpw : Model.Pointwise m f g) :
    predict_batch (some m) [] = .ok { predictions := [], total_patients := 0 } := by
  have h := batch_pointwise m f g [] hpw (by intro rec hrec; simp at hrec)
  exact h

/-- Witness for C3 at the stub model. -/
theorem batch_empty_ok_witness :
    predict_batch (some stubModel85) [] =
      .ok { predictions := [], total_patients := 0 } :=
  batch_empty_ok stubModel85 (fun _ => 1) (fun _ => [3/20, 17/20])
    ⟨fun _ => rfl, fun _ => rfl⟩

/-- C4: with the model absent, GetModelInfo, Predict and PredictBatch all
fail with the 503 ModelUnavailable error on every input, while GetHealth
still succeeds with model_loaded = false. -/
theorem model_absent_unavailable :
    (∀ now : String, health_check none now =
      { status := "healthy", model_loaded := false, timestamp := now }) ∧
    get_model_info none = .error { status_code := 503, detail := "Model not loaded" } ∧
    (∀ input, predict_heart_disease none input =
      .error { status_code := 503, detail := "Model not loaded" }) ∧
    (∀ l, predict_batch none l =
      .error { status_code := 503, detail := "Model not loaded" }) :=
  ⟨fun _ => rfl, rfl, fun _ => rfl, fun _ => rfl⟩

/-- C5: when the model invocation raises, Predict and PredictBatch return
the 500 InternalError carrying the raised message; the batch path is
all-or-nothing: it either returns a full result or one error value. -/
theorem model_exception_internal_error :
    (∀ (m : Model) (input : HeartDiseaseInput) (msg : String),
      m.predict [featureRow input] = .error msg →
      predict_heart_disease (some m) input =
        .error { status_code := 500, detail := "Prediction error: " ++ msg }) ∧
    (∀ (m : Model) (input : HeartDiseaseInput) (preds : List Int)
        (pred : Int) (msg : String),
      m.predict [featureRow input] = .ok preds →
      itemAt preds 0 = .ok pred →
      m.predict_proba [featureRow input] = .error msg →
      predict_heart_disease (some m) input =
        .error { status_code := 500, detail := "Prediction error: " ++ msg }) ∧
    (∀ (m : Model) (l : List HeartDiseaseInput) (msg : String),
      m.predict (l.map featureRow) = .error msg →
      predict_batch (some m) l =
        .error { status_code := 500, detail := "Batch prediction error: " ++ msg }) ∧
    (∀ (m : Model) (l : List HeartDiseaseInput) (preds : List Int) (msg : String),
      m.predict (l.map featureRow) = .ok preds →
      m.predict_proba (l.map featureRow) = .error msg →
      predict_batch (some m) l =
        .error { status_code := 500, detail := "Batch prediction error: " ++ msg }) ∧
    (∀ (model : Option Model) (l : List HeartDiseaseInput),
      (∃ res, predict_batch model l = .ok res) ∨
      (∃ e, predict_batch model l = .error e ∧
        (e.status_code = 500 ∨ e.status_code = 503))) := by
  refine ⟨?_, ?_, ?_, ?_, ?_⟩
  · intro m input msg h
    unfold predict_heart_disease
    simp [h]
  · intro m input preds pred msg h1 h2 h3
    unfold predict_heart_disease
    simp [h1, h2, h3]
  · intro m l msg h
    unfold predict_batch
    simp [h]
  · intro m l preds msg h1 h2
    unfold predict_batch
    simp [h1, h2]
  · intro model l
    cases hres : predict_batch model l with
    | ok res => exact Or.inl ⟨res, rfl⟩
    | error e => exact Or.inr ⟨e, rfl, batch_error_status model l e hres⟩

/-- Witness for C5: a stub model raising `boom` makes Predict answer the
500 error carrying that message. -/
theorem model_exception_internal_error_witness :
    predict_heart_disease (some failModel) sampleInput =
      .error { status_code := 500, detail := "Prediction error: boom" } :=
  model_exception_internal_error.1 failModel sampleInput "boom" rfl

/-- C6: every successful PredictBatch result numbers its entries
patient_id = index + 1 in input order, and for a pointwise model the i-th
entry is computed from the i-th input record. -/
theorem batch_preserves_order :
    (∀ (m : Model) (l : List HeartDiseaseInput) (res : BatchResult),
      predict_batch (some m) l = .ok res →
      ∀ i e, res.predictions.get? i = some e → e.patient_id = i + 1) ∧
    (∀ (m : Model) (f : List Rat → Int) (g : List Rat → List Rat)
        (l : List HeartDiseaseInput),
      Model.Pointwise m f g →
      (∀ rec ∈ l, 2 ≤ (g (featureRow rec)).length) →
      ∃ res, predict_batch (some m) l = .ok res ∧
        res.predictions.length = l.length ∧
        ∀ i rec, l.get? i = some rec →
          ∃ e, res.predictions.get? i = some e ∧ e.patient_id = i + 1 ∧
            e.prediction = f (featureRow rec) ∧
            e.probability = posProb g (featureRow rec)) := by
  constructor
  · exact batch_patient_id
  · intro m f g l hpw hlen
    refine ⟨_, batch_pointwise m f g l hpw hlen, ?_, ?_⟩
    · simp [List.length_map, enumFrom_len]
    · intro i rec hrec
      refine ⟨{ patient_id := 0 + i + 1,
                prediction := f (featureRow rec),
                probability := posProb g (featureRow rec),
                confidence := confidenceBand (posProb g (featureRow rec)) },
              ?_, by simp, rfl, rfl⟩
      rw [getq_enumFrom_map, hrec]
      rfl

/-- Witness for C6 at the stub model and a singleton batch. -/
theorem batch_preserves_order_witness :
    highEntry.patient_id = 0 + 1 :=
  batch_preserves_order.1 stubModel85 [sampleInput]
    { predictions := [highEntry], total_patients := 1 }
    (by norm_num [predict_batch, stubModel85, Model.ofFuns, itemAt, column1,
                  List.enum, List.enumFrom, highEntry])
    0 highEntry rfl

/-- C7: Predict takes its prediction field from the model discrete
decision function, not from thresholding the probability: for a pointwise
model the returned prediction is exactly the model label, and there is a
model for which the returned prediction is 1 while the probability is
below one half. -/
theorem prediction_from_model_decision :
    (∀ (m : Model) (f : List Rat → Int) (g : List Rat → List Rat)
        (input : HeartDiseaseInput) (q : Rat),
      Model.Pointwise m f g → (g (featureRow input)).get? 1 = some q →
      ∃ r, predict_heart_disease (some m) input = .ok r ∧
        r.prediction = f (featureRow input) ∧ r.probability = q) ∧
    (∃ (m : Model) (input : HeartDiseaseInput) (r : HeartDiseasePrediction),
      predict_heart_disease (some m) input = .ok r ∧
      r.prediction = 1 ∧ r.probability < 1/2) := by
  constructor
  · intro m f g input q hpw hq
    exact ⟨_, predict_pointwise m f g input q hpw hq, rfl, rfl⟩
  · refine ⟨divergeModel, sampleInput, _,
      predict_pointwise divergeModel (fun _ => 1) (fun _ => [7/10, 3/10])
        sampleInput (3/10) ⟨fun _ => rfl, fun _ => rfl⟩ rfl, rfl, by norm_num⟩

/-- Witness for C7: the first conjunct applied at the stub model. -/
theorem prediction_from_model_decision_witness :
    ∃ r, predict_heart_disease (some stubModel85) sampleInput = .ok r ∧
      r.prediction = 1 ∧ r.probability = 17/20 :=
  prediction_from_model_decision.1 stubModel85 (fun _ => 1)
    (fun _ => [3/20, 17/20]) sampleInput (17/20)
    ⟨fun _ => rfl, fun _ => rfl⟩ rfl

/-- C8: if the model only ever returns labels in 0 or 1 and probability
entries in the unit interval, then every successful Predict answer has its
probability in the unit interval, its prediction in 0 or 1, and its
probability equal to the index-1 entry of the first row of the model
probability matrix. -/
theorem predict_value_ranges (m : Model) (input : HeartDiseaseInput)
    (hpred : ∀ rows out, m.predict rows = .ok out → ∀ x ∈ out, x = 0 ∨ x = 1)
    (hproba : ∀ rows out, m.predict_proba rows = .ok out →
      ∀ v ∈ out, ∀ q ∈ v, 0 ≤ q ∧ q ≤ 1)
    (r : HeartDiseasePrediction)
    (h : predict_heart_disease (some m) input = .ok r) :
    (0 ≤ r.probability ∧ r.probability ≤ 1) ∧
    (r.prediction = 0 ∨ r.prediction = 1) ∧
    (∃ out row0, m.predict_proba [featureRow input] = .ok out ∧
      out.get? 0 = some row0 ∧ row0.get? 1 = some r.probability) := by
  unfold predict_heart_disease at h
  cases h1 : m.predict [featureRow input] with
  | error e => simp [h1] at h
  | ok preds =>
  simp only [h1] at h
  cases h2 : itemAt preds 0 with
  | error e => simp [h2] at h
  | ok pred =>
  simp only [h2] at h
  cases h3 : m.predict_proba [featureRow input] with
  | error e => simp [h3] at h
  | ok probas =>
  simp only [h3] at h
  cases h4 : itemAt probas 0 with
  | error e => simp [h4] at h
  | ok row0 =>
  simp only [h4] at h
  cases h5 : itemAt row0 1 with
  | error e => simp [h5] at h
  | ok probability =>
  simp only [h5, Except.ok.injEq] at h
  have hmem0 : pred ∈ preds :=
    getq_mem preds 0 pred ((itemAt_getq preds 0 pred).1 h2)
  have hmemr : row0 ∈ probas :=
    getq_mem probas 0 row0 ((itemAt_getq probas 0 row0).1 h4)
  have hmemq : probability ∈ row0 :=
    getq_mem row0 1 probability ((itemAt_getq row0 1 probability).1 h5)
  refine ⟨?_, ?_, probas, row0, rfl, (itemAt_getq probas 0 row0).1 h4, ?_⟩
  · rw [← h]
    exact hproba [featureRow input] probas h3 row0 hmemr probability hmemq
  · rw [← h]
    exact hpred [featureRow input] preds h1 pred hmem0
  · rw [← h]
    exact (itemAt_getq row0 1 probability).1 h5

/-- Witness for C8 at a stub model with probabilities 1/4 and 3/4. -/
theorem predict_value_ranges_witness :
    (0 ≤ medPrediction.probability ∧ medPrediction.probability ≤ 1) ∧
    (medPrediction.prediction = 0 ∨ medPrediction.prediction = 1) ∧
    (∃ out row0, boundedModel.predict_proba [featureRow sampleInput] = .ok out ∧
      out.get? 0 = some row0 ∧
      row0.get? 1 = some medPrediction.probability) :=
  predict_value_ranges boundedModel sampleInput
    (by
      intro rows out h x hx
      cases h
      obtain ⟨-, -, rfl⟩ := List.mem_map.1 hx
      exact Or.inr rfl)
    (by
      intro rows out h v hv q hq
      cases h
      obtain ⟨-, -, rfl⟩ := List.mem_map.1 hv
      simp only [List.mem_cons, List.not_mem_nil, or_false] at hq
      rcases hq with rfl | rfl <;> norm_num)
    medPrediction
    (by norm_num [predict_heart_disease, boundedModel, Model.ofFuns, itemAt,
                  medPrediction])

/-- C9: with a loaded model, GetModelInfo always returns the same constant
metadata record, independent of the model object, with the 13 feature
names in canonical order. -/
theorem model_info_static :
    (∀ m : Model, get_model_info (some m) = .ok
      { model_type := "Logistic Regression"
        accuracy := 0.8852
        features := ["age", "sex", "cp", "trestbps", "chol", "fbs", "restecg",
                     "thalach", "exang", "oldpeak", "slope", "ca", "thal"]
        description := "Logistic Regression model trained on UCI Heart Disease dataset with 88.52% accuracy" }) ∧
    (∀ m m' : Model, get_model_info (some m) = get_model_info (some m')) ∧
    (∀ m : Model, Except.map (fun info => info.features.length)
      (get_model_info (some m)) = .ok 13) :=
  ⟨fun _ => rfl, fun _ _ => rfl, fun _ => rfl⟩

/-- C10: every successful PredictBatch response reports total_patients
equal to the length of its predictions list. -/
theorem batch_total_consistent (model : Option Model)
    (l : List HeartDiseaseInput) (res : BatchResult)
    (h : predict_batch model l = .ok res) :
    res.total_patients = res.predictions.length := by
  cases model with
  | none => simp [predict_batch] at h
  | some m =>
    obtain ⟨-, -, -, ht⟩ := batch_ok_inv m l res h
    exact ht

/-- Witness for C10 at the stub model and the empty batch. -/
theorem batch_total_consistent_witness :
    ({ predictions := [], total_patients := 0 } : BatchResult).total_patients =
      ({ predictions := [], total_patients := 0 } : BatchResult).predictions.length :=
  batch_total_consistent (some stubModel85) []
    { predictions := [], total_patients := 0 } rfl
